import Mathlib

/-!
Shallow embedding of `src/scope/server/app.py` (the FastAPI control-plane of
the scope server) and proofs about its endpoint handlers, its logging filter,
and its lifespan (startup/shutdown) behaviour.

Conventions of the embedding:
* A Python exception is a value of `Exn`; `raise HTTPException(code, d)`
  becomes `Except.error (Exn.http code d)`, any other exception becomes
  `Except.error (Exn.other msg)`.
* A `try ... except` block becomes a `match` on the `Except` value of the
  body, mirroring which exception classes each `except` clause catches
  (`fastapi.HTTPException` is a subclass of `Exception`, so a bare
  `except Exception` clause also catches an `HTTPException` raised in the
  body).
* Effects of the event loop (scheduling a task with `asyncio.create_task`,
  awaiting a task, logging, initialising the global managers, the `yield` of
  the lifespan context manager) are recorded as an explicit `List Action`
  trace in program order.
* External collaborators that are not part of `app.py` (the WebRTC manager's
  `handle_offer`, the pipeline manager's status) enter as parameters of the
  handler functions: the handler's behaviour is modelled for every possible
  result of the collaborator.
-/

namespace Scope

/-- Python exception values as far as the handlers distinguish them:
either a `fastapi.HTTPException` carrying a status code and a detail
string, or any other exception carrying its message. -/
inductive Exn where
  | http (statusCode : Nat) (detail : String)
  | other (msg : String)
deriving DecidableEq, Repr

/-- Models Python `str(e)` on an exception: Starlette's `HTTPException.__str__`
returns `f"{status_code}: {detail}"`; for other exceptions we take the
carried message. -/
def strOfExn : Exn → String
  | .http s d => toString s ++ ": " ++ d
  | .other m => m

/-- Models the body of `WebRTCOfferRequest` / `WebRTCOfferResponse` from
`schema.py`: a session description `{sdp, type}`. The field `type` is a
Lean keyword, so it is rendered `sdpType`. -/
structure SessionDescription where
  sdp : String
  sdpType : String
deriving DecidableEq, Repr

/-- Modelled from the spec: load parameters are a "string-keyed mapping"
(`PipelineLoadRequest.load_params`; `schema.py` is not under `src/`). -/
structure LoadParams where
  fields : List (String × String)
deriving DecidableEq, Repr

/-- Models `PipelineLoadRequest` from `schema.py`: `{pipeline_id, load_params?}`. -/
structure PipelineLoadRequest where
  pipeline_id : String
  load_params : Option LoadParams
deriving DecidableEq, Repr

/-- Background tasks that `app.py` hands to `asyncio.create_task`:
the startup pre-warm task (`prewarm_pipeline(pipeline_id)`, which wraps the
manager load in `asyncio.wait_for(..., timeout=300)`), and the bare manager
load scheduled by the `/api/v1/pipeline/load` endpoint. -/
inductive BgTask where
  | prewarmTask (pipelineId : String)
  | managerLoadTask (pipelineId : String) (params : Option LoadParams)
deriving DecidableEq, Repr

/-- Observable effects of `app.py` in program order. `scheduleTask` is
`asyncio.create_task` (fire-and-forget); `awaitTask` would be an `await` of
such a task before responding (the code never does this, and the proofs
state so); `startupComplete` is the `yield` of the `lifespan` context
manager, i.e. the point at which the process is ready to serve. -/
inductive Action where
  | logWarning (msg : String)
  | logInfo (msg : String)
  | logError (msg : String)
  | initPipelineManager
  | initWebRTCManager
  | scheduleTask (t : BgTask)
  | awaitTask (t : BgTask)
  | startupComplete
  | webrtcStop
  | pipelineUnload
deriving DecidableEq, Repr

/-! ### Log filtering (`STUNErrorFilter`, module-level logging setup) -/

/-- Executable substring test on character lists, modelling Python's
`needle in s` for strings. -/
def containsSub (needle : List Char) : List Char → Bool
  | [] => needle.isPrefixOf []
  | c :: rest => needle.isPrefixOf (c :: rest) || containsSub needle rest

/-- Models a Python `logging.LogRecord` as far as the filter reads it:
`record.getMessage()` is the `msg` field. -/
structure LogRecord where
  msg : String
deriving DecidableEq, Repr

/-- The substring that `STUNErrorFilter` looks for. -/
def stunNoiseNeedle : String := "Task exception was never retrieved"

/-- Models `STUNErrorFilter.filter`: returns `False` when the record's
message contains `"Task exception was never retrieved"`, else `True`. -/
def STUNErrorFilter_filter (record : LogRecord) : Bool :=
  if containsSub stunNoiseNeedle.data record.msg.data then false else true

/-- Models the module-level filter installation of `app.py`: the pairs
`(logger name, filter)` added with `addFilter`. The only call is
`logging.getLogger("asyncio").addFilter(stun_filter)`. -/
def addedFilters : List (String × (LogRecord → Bool)) :=
  [("asyncio", STUNErrorFilter_filter)]

/-! ### Pipeline loading (endpoint, pre-warm, deadlines) -/

/-- Description of one launched pipeline construction: which pipeline, with
which parameters, and under which deadline (in seconds) the construction
runs; `none` means no deadline applies. -/
structure ConstructionLaunch where
  pipelineId : String
  loadParams : Option LoadParams
  deadlineSeconds : Option Nat
deriving DecidableEq, Repr

/-- Modelled from the spec: `PipelineManager.load_pipeline` lives in
`pipeline_manager.py`, which is not under `src/`. Per the spec,
`Load(id, params)` "begins asynchronous construction under a deadline
(300s)", so the launch it produces carries a 300-second deadline. -/
def PipelineManager_load_pipeline (pid : String) (params : Option LoadParams) :
    ConstructionLaunch :=
  { pipelineId := pid, loadParams := params, deadlineSeconds := some 300 }

/-- Models wrapping an awaited construction in
`asyncio.wait_for(..., timeout=t)`: the effective deadline becomes the
tighter of the wrapper's timeout and any deadline the construction already
runs under. -/
def applyWaitFor (timeoutSeconds : Nat) (l : ConstructionLaunch) :
    ConstructionLaunch :=
  { l with
    deadlineSeconds :=
      some (match l.deadlineSeconds with
            | none => timeoutSeconds
            | some d => min timeoutSeconds d) }

/-- The construction launched when a scheduled background task runs:
`prewarm_pipeline` wraps the manager load in
`asyncio.wait_for(..., timeout=300)` (app.py lines 166–174); the endpoint's
task is the bare manager load (app.py lines 288–290). -/
def taskLaunch : BgTask → ConstructionLaunch
  | .prewarmTask pid => applyWaitFor 300 (PipelineManager_load_pipeline pid none)
  | .managerLoadTask pid ps => PipelineManager_load_pipeline pid ps

/-- Models the `/api/v1/pipeline/load` handler `load_pipeline`
(app.py lines 275–294): converts the optional params, schedules the manager
load with `asyncio.create_task` without awaiting it, and returns the
acknowledgment message. Nothing in the `try` body can raise here, so the
`except` clause (500) is unreachable in the model. -/
def load_pipeline_endpoint (req : PipelineLoadRequest) :
    Except Exn String × List Action :=
  (.ok "Pipeline loading initiated successfully",
   [.scheduleTask (.managerLoadTask req.pipeline_id req.load_params)])

/-- The HTTP response of the load endpoint as a function of the eventual
outcome of the scheduled construction. The code never awaits the task it
created, so the response is computed without inspecting `outcome`. -/
def load_pipeline_response (req : PipelineLoadRequest)
    (outcome : Except Exn Unit) : Except Exn String :=
  (load_pipeline_endpoint req).1

/-- Models the body of `prewarm_pipeline` (app.py lines 166–174) as a
function of the outcome of the awaited, deadline-bounded manager load: the
bare `except Exception` logs the error and swallows it, so the task itself
always finishes without raising. -/
def prewarm_run (pid : String) (outcome : Except Exn Unit) :
    Except Exn Unit × List Action :=
  match outcome with
  | .ok _ => (.ok (), [])
  | .error e =>
      (.ok (),
       [.logError ("Error pre-warming pipeline " ++ pid ++
         " in background: " ++ strOfExn e)])

/-! ### Lifespan: startup and shutdown -/

/-- The warning logged at startup when `torch.cuda.is_available()` is false
(app.py lines 184–190). -/
def cudaWarning : String :=
  "CUDA is not available on this system. Some pipelines may not work without a CUDA-compatible GPU. The application will start, but pipeline functionality may be limited."

/-- Environment the startup half of `lifespan` reads: CUDA availability,
the optional `PIPELINE` environment variable, and the logs/models directory
paths reported by the excluded collaborators. -/
structure StartupConfig where
  cudaAvailable : Bool
  pipelineEnv : Option String
  logsDir : String
  modelsDir : String
deriving DecidableEq, Repr

/-- Models the startup half of `lifespan` (app.py lines 177–211) as its
trace of effects in program order, ending with the `yield`
(`startupComplete`). -/
def lifespan_startup (cfg : StartupConfig) : List Action :=
  (if cfg.cudaAvailable then [] else [.logWarning cudaWarning]) ++
  [.logInfo ("Logs directory: " ++ cfg.logsDir),
   .logInfo ("Models directory: " ++ cfg.modelsDir),
   .initPipelineManager,
   .logInfo "Pipeline manager initialized"] ++
  (match cfg.pipelineEnv with
   | some pid => [Action.scheduleTask (.prewarmTask pid)]
   | none => []) ++
  [.initWebRTCManager,
   .logInfo "WebRTC manager initialized",
   .startupComplete]

/-- Models the shutdown half of `lifespan` (app.py lines 213–222) as its
trace of effects, given whether each global manager was initialised
(the truthiness checks `if webrtc_manager:` / `if pipeline_manager:`).
`await webrtc_manager.stop()` completes before
`pipeline_manager.unload_pipeline()` starts. -/
def lifespan_shutdown (webrtcInit pipelineInit : Bool) : List Action :=
  (if webrtcInit then
     [.logInfo "Shutting down WebRTC manager...",
      .webrtcStop,
      .logInfo "WebRTC manager shutdown complete"]
   else []) ++
  (if pipelineInit then
     [.logInfo "Shutting down pipeline manager...",
      .pipelineUnload,
      .logInfo "Pipeline manager shutdown complete"]
   else [])

/-! ### WebRTC offer endpoint -/

/-- Models the `/api/v1/webrtc/offer` handler `handle_webrtc_offer`
(app.py lines 310–330). `statusInfo` is the result of
`pipeline_manager.get_status_info_async()` (its `"status"` field);
`offerResult` is the result of `webrtc_manager.handle_offer(...)`, both
external to `app.py`. The `try` body raises `HTTPException(400)` when the
status is not `"loaded"`, otherwise returns the answer; the clause
`except Exception` catches every exception of the body — including the
`HTTPException(400)`, since `HTTPException` subclasses `Exception` — and
re-raises it as `HTTPException(500, str(e))`. -/
def handle_webrtc_offer (statusInfo : Except Exn String)
    (offerResult : Except Exn SessionDescription) :
    Except Exn SessionDescription :=
  let body : Except Exn SessionDescription :=
    match statusInfo with
    | .error e => .error e
    | .ok status =>
        if status ≠ "loaded" then
          .error (.http 400 "Pipeline not loaded. Please load pipeline first.")
        else
          offerResult
  match body with
  | .ok r => .ok r
  | .error e => .error (.http 500 (strOfExn e))

/-! ### Health endpoint -/

/-- Models `HealthResponse` from `schema.py`: `{status, timestamp}`. -/
structure HealthResponse where
  status : String
  timestamp : String
deriving DecidableEq, Repr

/-- Ambient server state a handler could read through the module globals:
the pipeline's current status string and its last recorded error.
`health_check` reads none of it. -/
structure ServerState where
  pipelineStatus : String
  lastError : Option String
deriving DecidableEq, Repr

/-- Models the `/health` handler `health_check` (app.py lines 252–255),
with the ambient server state made explicit: the handler builds
`HealthResponse(status="healthy", timestamp=datetime.now().isoformat())`
from the clock alone. -/
def health_check (st : ServerState) (now : String) : Except Exn HealthResponse :=
  .ok { status := "healthy", timestamp := now }

/-! ### Current-logs endpoint -/

/-- Executable worker for `pyReplace`, structurally recursive on a fuel
bound (the length of the subject suffices, since each step consumes at
least one character). -/
def pyReplaceAux (old new : List Char) : Nat → List Char → List Char
  | 0, s => s
  | _ + 1, [] => []
  | fuel + 1, c :: rest =>
    if old.isPrefixOf (c :: rest) then
      new ++ pyReplaceAux old new fuel (List.drop (old.length - 1) rest)
    else
      c :: pyReplaceAux old new fuel rest

/-- Models Python `s.replace(old, new)` for a nonempty `old` (the call site
uses `".log"`): every non-overlapping occurrence of `old`, scanned left to
right, is replaced by `new`. -/
def pyReplace (s old new : String) : String :=
  ⟨pyReplaceAux old.data new.data s.data.length s.data⟩

/-- What the handler observes of `get_most_recent_log_file()` and the file
system: the returned path's final name, whether `path.exists()`, and the
text `path.read_text(encoding="utf-8")` would yield. -/
structure LogFileInfo where
  name : String
  existsOnDisk : Bool
  content : String
deriving DecidableEq, Repr

/-- Models the `Response(...)` built by `get_current_logs`: the body, the
media type, and the `Content-Disposition` header. -/
structure FileAttachment where
  content : String
  mediaType : String
  contentDisposition : String
deriving DecidableEq, Repr

/-- The 404 detail of `get_current_logs`. -/
def logNotFoundDetail : String :=
  "Log file not found. The application may not have logged anything yet."

/-- Models the `/api/v1/logs/current` handler `get_current_logs`
(app.py lines 443–471). The argument is `get_most_recent_log_file()`
(`none` for Python `None`). The body raises `HTTPException(404)` when the
path is `None` or does not exist, else returns the whole file as a
plain-text attachment whose filename swaps `".log"` for `".txt"`. The
clause `except HTTPException: raise` re-raises the 404 unchanged; only
other exceptions become `HTTPException(500, str(e))`. -/
def get_current_logs (f : Option LogFileInfo) : Except Exn FileAttachment :=
  let body : Except Exn FileAttachment :=
    match f with
    | none => .error (.http 404 logNotFoundDetail)
    | some fi =>
        if !fi.existsOnDisk then
          .error (.http 404 logNotFoundDetail)
        else
          .ok { content := fi.content,
                mediaType := "text/plain",
                contentDisposition :=
                  "attachment; filename=\"" ++
                    pyReplace fi.name ".log" ".txt" ++ "\"" }
  match body with
  | .ok r => .ok r
  | .error (.http c d) => .error (.http c d)
  | .error (.other m) => .error (.http 500 m)

/-! ### Helper lemmas -/

/-- Substring containment test agrees with list-infix. -/
theorem containsSub_iff_infix (needle s : List Char) :
    containsSub needle s = true ↔ needle <:+: s := by
  induction s with
  | nil =>
    simp [containsSub, List.isPrefixOf_iff_prefix]
  | cons c rest ih =>
    rw [containsSub, List.infix_cons_iff, Bool.or_eq_true, ih,
      List.isPrefixOf_iff_prefix]

/-! ### Claim theorems -/

/-- C1: the claim says a media offer received while the pipeline is not
loaded is rejected with a client error (4xx). The code writes
`HTTPException(status_code=400, ...)`, but the blanket `except Exception`
clause of the same handler catches that exception and re-raises it as
`HTTPException(500, str(e))`, so the wire response is a 500 server error.
This theorem evaluates the handler at the failing input (status
`"unloaded"`) and shows the 500, and also shows the loaded path forwards
the session manager's answer unchanged. -/
theorem c1_offer_rejected_as_500_not_4xx :
    handle_webrtc_offer (.ok "unloaded") (.ok ⟨"v=0", "answer"⟩) =
      .error (.http 500 "400: Pipeline not loaded. Please load pipeline first.") ∧
    (∀ ans : SessionDescription,
      handle_webrtc_offer (.ok "loaded") (.ok ans) = .ok ans) :=
  ⟨rfl, fun _ => rfl⟩

/-- C2: every load-pipeline request is answered with the immediate
acknowledgment; the load is scheduled as a background task and the handler
awaits no task before responding. -/
theorem c2_load_ack_immediate (req : PipelineLoadRequest) :
    (load_pipeline_endpoint req).1 = .ok "Pipeline loading initiated successfully" ∧
    Action.scheduleTask (.managerLoadTask req.pipeline_id req.load_params) ∈
      (load_pipeline_endpoint req).2 ∧
    ∀ t, Action.awaitTask t ∉ (load_pipeline_endpoint req).2 := by
  refine ⟨rfl, ?_, ?_⟩ <;> simp [load_pipeline_endpoint]

/-- C3: every load — the endpoint-scheduled one and the startup pre-warm —
begins construction under a 300-second deadline. The manager-side deadline
is modelled from the spec (see `PipelineManager_load_pipeline`); the
pre-warm additionally wraps the load in `asyncio.wait_for(..., timeout=300)`. -/
theorem c3_every_load_deadline_300 (t : BgTask) :
    (taskLaunch t).deadlineSeconds = some 300 := by
  cases t <;> simp [taskLaunch, applyWaitFor, PipelineManager_load_pipeline]

/-- C4: the response of the load endpoint does not depend on the outcome of
the construction it scheduled — the caller gets the success acknowledgment
for every outcome — and the pre-warm task swallows every construction
failure instead of re-raising it. -/
theorem c4_load_failure_invisible_to_caller (req : PipelineLoadRequest)
    (outcome : Except Exn Unit) (pid : String) :
    load_pipeline_response req outcome =
      .ok "Pipeline loading initiated successfully" ∧
    (prewarm_run pid outcome).1 = .ok () := by
  refine ⟨rfl, ?_⟩
  cases outcome <;> rfl

/-- C5: startup schedules the pre-warm task exactly when the `PIPELINE`
environment variable is set, awaits no background task, and the trace ends
with the `yield` (readiness) regardless. -/
theorem c5_prewarm_scheduled_iff_env (cfg : StartupConfig) (p : String) :
    (Action.scheduleTask (.prewarmTask p) ∈ lifespan_startup cfg ↔
      cfg.pipelineEnv = some p) ∧
    (∀ t, Action.awaitTask t ∉ lifespan_startup cfg) ∧
    (lifespan_startup cfg).getLast? = some .startupComplete := by
  obtain ⟨cuda, pe, ld, md⟩ := cfg
  refine ⟨?_, ?_, ?_⟩ <;>
    cases cuda <;> cases pe <;>
    simp [lifespan_startup, eq_comm]

/-- C6: the transient-network-noise filter returns `False` exactly on the
records whose message contains `"Task exception was never retrieved"` as a
substring, and it is the filter installed on the `"asyncio"` logger. -/
theorem c6_stun_filter_exact :
    (∀ r : LogRecord, STUNErrorFilter_filter r = false ↔
      ∃ pre post, pre ++ stunNoiseNeedle.data ++ post = r.msg.data) ∧
    ("asyncio", STUNErrorFilter_filter) ∈ addedFilters := by
  constructor
  · intro r
    have h := containsSub_iff_infix stunNoiseNeedle.data r.msg.data
    by_cases hc : containsSub stunNoiseNeedle.data r.msg.data = true
    · rw [STUNErrorFilter_filter, if_pos hc]
      exact iff_of_true rfl (h.mp hc)
    · rw [STUNErrorFilter_filter, if_neg hc]
      exact iff_of_false (by simp) (fun hx => hc (h.mpr hx))
  · exact List.mem_singleton_self _

/-- C7: with CUDA unavailable the startup trace is the warning followed by
exactly the trace of the CUDA-available startup: both managers are still
initialised and readiness is still reached — startup is never aborted. -/
theorem c7_no_cuda_degraded_startup (pe : Option String) (ld md : String) :
    lifespan_startup ⟨false, pe, ld, md⟩ =
      Action.logWarning cudaWarning :: lifespan_startup ⟨true, pe, ld, md⟩ ∧
    Action.initPipelineManager ∈ lifespan_startup ⟨false, pe, ld, md⟩ ∧
    Action.initWebRTCManager ∈ lifespan_startup ⟨false, pe, ld, md⟩ ∧
    Action.startupComplete ∈ lifespan_startup ⟨false, pe, ld, md⟩ := by
  refine ⟨rfl, ?_, ?_, ?_⟩ <;> cases pe <;> simp [lifespan_startup]

/-- C8: on shutdown the WebRTC (session) manager is stopped exactly when it
was initialised, the pipeline manager is unloaded exactly when it was
initialised, and when both happen the stop precedes the unload. -/
theorem c8_shutdown_stop_before_unload (w p : Bool) :
    ((Action.webrtcStop ∈ lifespan_shutdown w p) ↔ w = true) ∧
    ((Action.pipelineUnload ∈ lifespan_shutdown w p) ↔ p = true) ∧
    (w = true → p = true →
      (lifespan_shutdown w p).indexOf Action.webrtcStop <
        (lifespan_shutdown w p).indexOf Action.pipelineUnload) := by
  cases w <;> cases p <;> refine ⟨?_, ?_, ?_⟩ <;> decide

/-- C8 witness: with both managers initialised, the stop's position in the
shutdown trace precedes the unload's. -/
theorem c8_shutdown_stop_before_unload_witness :
    (lifespan_shutdown true true).indexOf Action.webrtcStop <
      (lifespan_shutdown true true).indexOf Action.pipelineUnload :=
  (c8_shutdown_stop_before_unload true true).2.2 rfl rfl

/-- C9: the health probe succeeds for every server state and returns
status `"healthy"` together with the current timestamp. -/
theorem c9_health_always_healthy (st : ServerState) (now : String) :
    health_check st now = .ok { status := "healthy", timestamp := now } :=
  rfl

/-- C10: with no log file (path `None` or not existing on disk) the
current-logs endpoint fails with the 404 not-found error — re-raised
unchanged, not wrapped into a 500 — and with an existing file it returns
the full contents as a plain-text attachment. -/
theorem c10_current_logs_behaviour (fi : LogFileInfo) :
    get_current_logs none = .error (.http 404 logNotFoundDetail) ∧
    (fi.existsOnDisk = false →
      get_current_logs (some fi) = .error (.http 404 logNotFoundDetail)) ∧
    (fi.existsOnDisk = true →
      get_current_logs (some fi) =
        .ok { content := fi.content,
              mediaType := "text/plain",
              contentDisposition :=
                "attachment; filename=\"" ++
                  pyReplace fi.name ".log" ".txt" ++ "\"" }) := by
  refine ⟨rfl, ?_, ?_⟩ <;> intro h <;> simp [get_current_logs, h]

/-- C10 witness: concrete runs of the endpoint — a non-existing file yields
the 404 and an existing `scope.log` comes back as `scope.txt` with its
contents. -/
theorem c10_current_logs_behaviour_witness :
    get_current_logs (some ⟨"scope.log", false, ""⟩) =
      .error (.http 404 logNotFoundDetail) ∧
    get_current_logs (some ⟨"scope.log", true, "2026 - INFO - started"⟩) =
      .ok { content := "2026 - INFO - started",
            mediaType := "text/plain",
            contentDisposition := "attachment; filename=\"scope.txt\"" } :=
  ⟨(c10_current_logs_behaviour ⟨"scope.log", false, ""⟩).2.1 rfl,
   (c10_current_logs_behaviour ⟨"scope.log", true, "2026 - INFO - started"⟩).2.2 rfl⟩

end Scope
